import Mathlib

namespace Kaleidoscope

/-!
Verification of the `kaleidoscope` orchestrator (`kaleidoscope/interface.py`).

The Python class `Interface` wraps command-line tools (kops, kubectl, aws)
and the boto3 object-storage API.  This file gives a shallow embedding of the
claim-relevant parts of that class — derived naming, environment validation,
shell execution, storage provisioning, the construction sequence, progress
parsing, upload dispatch and the paginated listing/download pair — and proves
or refutes the documented behaviours against it.

External effects are modelled explicitly: the outside world (installed tools,
existing buckets, environment variables, cluster status output, storage
listing pages, process output) is passed in as data, and each operation
returns the events/commands it would issue together with its Python-level
outcome (`Except PyError`).
-/

/-- Python exception values raised by `interface.py`. -/
inductive PyError where
  | assertionError (msg : String)
  | environmentError (msg : String)
  | valueError (msg : String)
  | osError (msg : String)
  | typeError (msg : String)
  deriving DecidableEq

/-- Python `str.strip()`: drop whitespace from both ends. -/
def pyStrip (s : String) : String :=
  String.mk (((s.toList.dropWhile Char.isWhitespace).reverse.dropWhile Char.isWhitespace).reverse)

/-- Split a char list at every occurrence of `sep` (model of `str.split(sep)`,
which never drops pieces: splitting the empty string gives one empty piece). -/
def splitOnChar (sep : Char) : List Char → List (List Char)
  | [] => [[]]
  | c :: rest =>
    let r := splitOnChar sep rest
    if c = sep then [] :: r
    else
      match r with
      | [] => [[c]]
      | h :: t => (c :: h) :: t

/-- Python `str.split(":")`. -/
def pySplitColon (s : String) : List String :=
  (splitOnChar ':' s.toList).map String.mk

/-- Python `str.splitlines()` (newline-separated; a trailing newline does not
produce a trailing empty line, and the empty string has no lines). -/
def pySplitlines (s : String) : List String :=
  let parts := splitOnChar '\n' s.toList
  (if parts.getLast? = some [] then parts.dropLast else parts).map String.mk

/-- Value of a non-empty all-digit char list, `none` otherwise. -/
def digitsToNat (cs : List Char) : Option Nat :=
  if cs.isEmpty then none
  else
    cs.foldl (fun acc c =>
      match acc with
      | none => none
      | some n => if c.isDigit then some (10 * n + (c.toNat - 48)) else none)
      (some 0)

/-- Python `int(s)`: optional sign and digits after stripping whitespace;
`none` models the `ValueError` raised on anything else. -/
def pyInt (s : String) : Option Int :=
  match (pyStrip s).toList with
  | '-' :: rest => (digitsToNat rest).map (fun n => -(n : Int))
  | '+' :: rest => (digitsToNat rest).map (fun n => (n : Int))
  | cs => (digitsToNat cs).map (fun n => (n : Int))

/-- Substring test on char lists: `listContainsSub pat l` is true when `pat`
occurs contiguously inside `l` (used to model the Python `in` test on strings). -/
def listContainsSub (pat : List Char) : List Char → Bool
  | [] => pat.isEmpty
  | c :: rest => List.isPrefixOf pat (c :: rest) || listContainsSub pat rest

/-- The Python `pat in s` substring test. -/
def strContains (s pat : String) : Bool :=
  listContainsSub pat.toList s.toList

/-- The four identifiers `Interface.__init__` derives from its
`cluster_name_prefix` argument (interface.py lines 48-51). -/
structure ClusterIdentity where
  cluster_name : String
  kops_state_store_name : String
  original_images_bucket : String
  augmented_images_bucket : String
  deriving DecidableEq

/-- Name derivation from the prefix (interface.py lines 48-51). -/
def mkClusterIdentity (pfx : String) : ClusterIdentity :=
  { cluster_name := pfx ++ ".k8s.local"
    kops_state_store_name := pfx ++ "-kops-state-store"
    original_images_bucket := pfx ++ "-original-images-bucket"
    augmented_images_bucket := pfx ++ "-augmented-images-bucket" }

/-- The two environment variables read by
`Interface._check_environmental_variables` (both present; `os.environ[...]`
lookup succeeds, which is the situation the claims describe). -/
structure Env where
  kops_cluster_name : String
  kops_state_store : String
  deriving DecidableEq

/-- `Interface._check_environmental_variables` (interface.py lines 122-132):
each mismatch raises `EnvironmentError` whose message appends the corrective
shell `export` statement, which contains the exact expected value. -/
def check_environmental_variables (ident : ClusterIdentity) (env : Env) :
    Except PyError Unit :=
  let message := "please run this command in Terminal and try again:"
  if env.kops_cluster_name ≠ ident.cluster_name then
    Except.error (PyError.environmentError
      (message ++ "\x27export KOPS_CLUSTER_NAME=\"" ++ ident.cluster_name
        ++ "\"\x27 >> $HOME/.bash_profile"))
  else if env.kops_state_store ≠ "s3://" ++ ident.kops_state_store_name then
    Except.error (PyError.environmentError
      (message ++ "\x27export KOPS_STATE_STORE=\"s3://" ++ ident.kops_state_store_name
        ++ "\"\x27 >> $HOME/.bash_profile"))
  else
    Except.ok ()

/-- One external command execution: what the command writes to its stdout and
stderr streams. -/
structure ProcessResult where
  stdout : String
  stderr : String
  deriving DecidableEq

/-- `subprocess.Popen(command, stdout=subprocess.PIPE, shell=True)` followed by
`process.communicate()` (interface.py line 149-150).  Only stdout is piped;
stderr is left unredirected, so it flows to the stderr of the parent process and
`communicate()` returns `None` as its error component — whatever the command
wrote to stderr (`r.stderr`) is never captured. -/
def communicate (r : ProcessResult) : String × Option String :=
  (r.stdout, none)

/-- `Interface._pass_command_to_shell` (interface.py lines 147-154):
`if error: raise OSError(error)`, then return the decoded, stripped stdout. -/
def pass_command_to_shell (r : ProcessResult) : Except PyError String :=
  let output_error := communicate r
  match output_error.2 with
  | some err => Except.error (PyError.osError err)
  | none => Except.ok (pyStrip output_error.1)

/-- Environment with a wrong cluster-name value, used to witness C8. -/
def envWrong : Env :=
  { kops_cluster_name := "kaleidoscope.k8s.local"
    kops_state_store := "s3://demo-kops-state-store" }

/-- One object entry of a listing response ("Contents" element). -/
structure S3Object where
  key : String
  deriving DecidableEq

/-- One `list_objects_v2` response: the optional "Contents" entry and the
optional "NextContinuationToken" entry. -/
structure Page where
  contents : Option (List S3Object)
  nextToken : Option String
  deriving DecidableEq

/-- The "Contents" list of a page (empty when the key is absent). -/
def pageContents (page : Page) : List S3Object :=
  page.contents.getD []

/-- Concatenation, in order, of the "Contents" lists of a page sequence. -/
def allContents : List Page → List S3Object
  | [] => []
  | page :: rest => pageContents page ++ allContents rest

/-- The `while True` loop of `Interface._download_augmented_images_pointers`
(interface.py lines 287-299).  `pages` is the sequence of successive service
responses; `image_pointers` the accumulator; `tok` the "ContinuationToken"
entry of `kwargs` for the current call (`none` on the first call).  Returns
the Python return value (`none` models the bare `return` taken when a
response lacks "Contents", discarding the accumulator) together with the list
of continuation tokens passed, one per call issued. -/
def list_objects_loop : List Page → List S3Object → Option String →
    Option (List S3Object) × List (Option String)
  | [], image_pointers, _ => (some image_pointers, [])
  | page :: rest, image_pointers, tok =>
    match page.contents with
    | none => (none, [tok])
    | some objects =>
      match page.nextToken with
      | none => (some (image_pointers ++ objects), [tok])
      | some t =>
        let r := list_objects_loop rest (image_pointers ++ objects) (some t)
        (r.1, tok :: r.2)

/-- `Interface._download_augmented_images_pointers` (interface.py
lines 279-301): the loop started with an empty accumulator and no
continuation token. -/
def download_augmented_images_pointers (pages : List Page) :
    Option (List S3Object) × List (Option String) :=
  list_objects_loop pages [] none

/-- A well-formed pagination run: at least one page, every page carries
"Contents", every page but the last carries "NextContinuationToken", and the
last page omits it. -/
def goodPages : List Page → Bool
  | [] => false
  | page :: rest =>
    match rest with
    | [] => page.contents.isSome && page.nextToken.isNone
    | _ :: _ => page.contents.isSome && page.nextToken.isSome && goodPages rest

def o1 : S3Object := { key := "o1" }

def o2 : S3Object := { key := "o2" }

def o3 : S3Object := { key := "o3" }

/-- The two-page run of the pagination claim: page 1 has contents o1, o2 and
token "T1"; page 2 has contents o3 and no token. -/
def pagesEx : List Page :=
  [{ contents := some [o1, o2], nextToken := some "T1" },
   { contents := some [o3], nextToken := none }]

/-- `Interface.download_augmented_images` (interface.py lines 316-320): list
the pointers, then map `_download_one_file` over them with a thread pool.
`_download_one_file` writes each object to `augmented_images/<key>`; here the
download phase is modelled by the list of destination paths it writes.  When
the listing returned `None`, `executor.map` receives `None` as its iterable
and raises `TypeError`. -/
def download_augmented_images (pages : List Page) : Except PyError (List String) :=
  match (download_augmented_images_pointers pages).1 with
  | none => Except.error (PyError.typeError "NoneType object is not iterable")
  | some pointers => Except.ok (pointers.map (fun o => "augmented_images/" ++ o.key))

/-- A run whose second page lacks "Contents", used to witness C10. -/
def pagesBad : List Page :=
  [{ contents := some [o1, o2], nextToken := some "T1" },
   { contents := none, nextToken := none }]

/-- `Interface._get_progress` (interface.py lines 253-262) applied to the
(already stripped) output of `kubectl logs poll`: split into lines; if any,
split the last line on ":" and parse its first piece with `int` (a parse
failure raises `ValueError`); otherwise `None`. -/
def get_progress (output : String) : Except PyError (Option Int) :=
  let lines := pySplitlines output
  match lines.getLast? with
  | some last =>
    match pyInt ((pySplitColon last).headD "") with
    | some n => Except.ok (some n)
    | none => Except.error (PyError.valueError "invalid literal for int")
  | none => Except.ok none

/-- The fixed batch size `100 * 2**6` of `Interface.progress`
(interface.py line 273). -/
def batch_size : Int := 100 * 2 ^ 6

/-- The remaining-image estimate `batch_size * (main + 1)` printed by
`Interface.progress` (interface.py line 275). -/
def remaining_estimate (count : Int) : Int := batch_size * (count + 1)

/-- Python truthiness of an optional string argument (`None` and the empty
string are falsy). -/
def pyTruthy : Option String → Bool
  | none => false
  | some s => !s.toList.isEmpty

/-- `Interface.upload_images` (interface.py lines 229-242): the shell commands
issued, in order, paired with the outcome.  With a truthy `s3_origin` the
remote copy runs; otherwise with a truthy `local_images_directory` the local
copy runs; otherwise `ValueError` is raised before any command.  After a
successful copy, `_activate_queue_maker` issues its kubectl command. -/
def upload_images (ident : ClusterIdentity)
    (local_images_directory s3_origin : Option String) :
    List String × Except PyError Unit :=
  if pyTruthy s3_origin then
    (["aws s3 cp s3://" ++ s3_origin.getD "" ++ " s3://" ++ ident.original_images_bucket
        ++ " --recursive --quiet",
      "kubectl create -f queue_maker.yaml"], Except.ok ())
  else if pyTruthy local_images_directory then
    (["aws s3 cp " ++ local_images_directory.getD "" ++ " s3://" ++ ident.original_images_bucket
        ++ " --recursive --quiet",
      "kubectl create -f queue_maker.yaml"], Except.ok ())
  else
    ([], Except.error (PyError.valueError "at least one image origin must be not None"))

/-- Externally visible events issued by `Interface.__init__` and its helpers:
install-check shell probes, bucket existence checks, bucket creation and
versioning calls (`aws s3api`), the environment-variable validation, the
readiness probe (`kops validate cluster` plus its substring test, with its
boolean outcome), manifest writes, and stage activations
(`kubectl create -f <manifest>`). -/
inductive Event where
  | shellCheck (cmd : String)
  | bucketExistsCheck (name : String)
  | createBucket (name : String)
  | putVersioning (name : String)
  | envCheck
  | readinessProbe (ready : Bool)
  | writeYaml (path : String)
  | activate (manifest : String)
  deriving DecidableEq

/-- Resource-creation calls: bucket creation or versioning configuration. -/
def isCreationCall : Event → Bool
  | Event.createBucket _ => true
  | Event.putVersioning _ => true
  | _ => false

/-- Bucket-creation requests only. -/
def isBucketCreation : Event → Bool
  | Event.createBucket _ => true
  | _ => false

/-- The environment-variable validation event. -/
def isValidationCheck : Event → Bool
  | Event.envCheck => true
  | _ => false

/-- Stage-activation events (`kubectl create -f ...`). -/
def isActivationEvent : Event → Bool
  | Event.activate _ => true
  | _ => false

/-- A readiness probe that returned `Ready`. -/
def isReadySignal : Event → Bool
  | Event.readinessProbe ready => ready
  | _ => false

/-- Events that occur during install checks and storage provisioning. -/
def isSetupEvent : Event → Bool
  | Event.shellCheck _ => true
  | Event.bucketExistsCheck _ => true
  | Event.createBucket _ => true
  | Event.putVersioning _ => true
  | _ => false

/-- `Interface._bucket_exists` (interface.py lines 99-102): membership of the
named bucket among the existing buckets of the account. -/
def bucket_exists (buckets : List String) (name : String) : Bool :=
  buckets.contains name

/-- The check-then-create ensure pattern of `Interface.create_image_buckets`
(interface.py lines 81-88) for one bucket: probe existence, create only when
absent.  The storage capability is modelled by the bucket list itself: a
create-bucket call makes the bucket exist. -/
def ensure_bucket (buckets : List String) (name : String) : List String × List Event :=
  if bucket_exists buckets name then
    (buckets, [Event.bucketExistsCheck name])
  else
    (name :: buckets, [Event.bucketExistsCheck name, Event.createBucket name])

/-- `Interface.create_image_buckets` (interface.py lines 81-88): ensure the
original-images bucket, then the augmented-images bucket. -/
def create_image_buckets (buckets : List String) (ident : ClusterIdentity) :
    List String × List Event :=
  let r1 := ensure_bucket buckets ident.original_images_bucket
  let r2 := ensure_bucket r1.1 ident.augmented_images_bucket
  (r2.1, r1.2 ++ r2.2)

/-- The state-store step of `__init__` (interface.py lines 65-66 and 110-120):
check existence; when absent, create the bucket and immediately enable
versioning. -/
def state_store_step (buckets : List String) (name : String) : List String × List Event :=
  if bucket_exists buckets name then
    (buckets, [Event.bucketExistsCheck name])
  else
    (name :: buckets,
      [Event.bucketExistsCheck name, Event.createBucket name, Event.putVersioning name])

/-- The full storage-provisioning prefix of `__init__`: state store first,
then the two image buckets. -/
def provision_storage (buckets : List String) (ident : ClusterIdentity) :
    List String × List Event :=
  let s := state_store_step buckets ident.kops_state_store_name
  let i := create_image_buckets s.1 ident
  (i.1, s.2 ++ i.2)

/-- `Interface._cluster_ready` (interface.py lines 134-142): the readiness
substring test on the output of `kops validate cluster`. -/
def cluster_ready (ident : ClusterIdentity) (validate_output : String) : Bool :=
  strContains validate_output ("Your cluster " ++ ident.cluster_name ++ " is ready")

/-- The manifest files written by `Interface._configure_base_cluster`
(interface.py lines 182-188), in order. -/
def configure_base_cluster_events : List Event :=
  [Event.writeYaml "secret.yaml", Event.writeYaml "secret_store.yaml",
   Event.writeYaml "redis_service.yaml", Event.writeYaml "redis_master.yaml",
   Event.writeYaml "queue_maker.yaml", Event.writeYaml "poll.yaml"]

/-- The base-phase activations issued by `Interface._activate_base_components`
(interface.py lines 220-224), in order: secret, secret store, redis service,
redis master. -/
def base_activation_events : List Event :=
  [Event.activate "secret.yaml", Event.activate "secret_store.yaml",
   Event.activate "redis_service.yaml", Event.activate "redis_master.yaml"]

/-- The external state `Interface.__init__` runs against: stdout of the two
install probes, the existing buckets, the two environment variables, and
stdout of `kops validate cluster`. -/
structure World where
  kubectl_output : String
  aws_output : String
  buckets : List String
  env : Env
  validate_output : String

/-- `Interface.__init__` (interface.py lines 42-79): install checks, state
store, image buckets, environment validation, readiness probe, then — only
when ready — manifest generation and the base-phase activations.  Returns the
ordered event trace and the Python outcome.  Shell execution follows
`pass_command_to_shell` (stdout only, never raising), so the install checks
test the length of the stripped stdout. -/
def interface_init (pfx : String) (w : World) : List Event × Except PyError Unit :=
  let ident := mkClusterIdentity pfx
  if (pyStrip w.kubectl_output).toList.isEmpty then
    ([Event.shellCheck "kubectl -h"],
      Except.error (PyError.assertionError "cannot find kubectl"))
  else if (pyStrip w.aws_output).toList.isEmpty then
    ([Event.shellCheck "kubectl -h", Event.shellCheck "aws help"],
      Except.error (PyError.assertionError "cannot find awscli"))
  else
    let t := [Event.shellCheck "kubectl -h", Event.shellCheck "aws help"] ++
      (provision_storage w.buckets ident).2 ++ [Event.envCheck]
    match check_environmental_variables ident w.env with
    | Except.error e => (t, Except.error e)
    | Except.ok _ =>
      if cluster_ready ident w.validate_output then
        (t ++ [Event.readinessProbe true] ++ configure_base_cluster_events ++
          base_activation_events, Except.ok ())
      else
        (t ++ [Event.readinessProbe false], Except.ok ())

/-- The creation-before-validation ordering asserted by the spec: no
resource-creation call occurs before the environment validation. -/
def noCreationBeforeValidation (t : List Event) : Bool :=
  (t.takeWhile (fun e => !(isValidationCheck e))).all (fun e => !(isCreationCall e))

/-- No stage activation occurs before the environment validation. -/
def noActivationBeforeValidation (t : List Event) : Bool :=
  (t.takeWhile (fun e => !(isValidationCheck e))).all (fun e => !(isActivationEvent e))

/-- No resource-creation call occurs once the environment validation ran. -/
def noCreationAfterValidation (t : List Event) : Bool :=
  (t.dropWhile (fun e => !(isValidationCheck e))).all (fun e => !(isCreationCall e))

/-- No stage activation occurs before a `Ready` readiness result. -/
def noActivationBeforeReady (t : List Event) : Bool :=
  (t.takeWhile (fun e => !(isReadySignal e))).all (fun e => !(isActivationEvent e))

/-- Number of bucket-creation requests in a trace. -/
def countBucketCreations (t : List Event) : Nat :=
  (t.filter isBucketCreation).length

/-- A fresh world: tools installed, no bucket exists yet, environment
variables already matching the "demo" prefix, cluster not ready. -/
def w0 : World :=
  { kubectl_output := "x"
    aws_output := "x"
    buckets := []
    env := { kops_cluster_name := "demo.k8s.local"
             kops_state_store := "s3://demo-kops-state-store" }
    validate_output := "" }

/-- A fully provisioned, ready world for the "demo" prefix. -/
def w1 : World :=
  { kubectl_output := "x"
    aws_output := "x"
    buckets := ["demo-kops-state-store", "demo-original-images-bucket",
                "demo-augmented-images-bucket"]
    env := { kops_cluster_name := "demo.k8s.local"
             kops_state_store := "s3://demo-kops-state-store" }
    validate_output := "Your cluster demo.k8s.local is ready" }

/-- Claim C7: all derived identifiers are pure functions of the prefix string:
prefix "demo" yields cluster name demo.k8s.local, state store
demo-kops-state-store, and buckets demo-original-images-bucket and
demo-augmented-images-bucket; any two identities built from the same prefix
agree on all four names. -/
theorem deterministic_naming :
    (mkClusterIdentity "demo").cluster_name = "demo.k8s.local" ∧
    (mkClusterIdentity "demo").kops_state_store_name = "demo-kops-state-store" ∧
    (mkClusterIdentity "demo").original_images_bucket = "demo-original-images-bucket" ∧
    (mkClusterIdentity "demo").augmented_images_bucket = "demo-augmented-images-bucket" ∧
    ∀ (p : String) (i1 i2 : ClusterIdentity),
      i1 = mkClusterIdentity p → i2 = mkClusterIdentity p →
        i1.cluster_name = i2.cluster_name ∧
        i1.kops_state_store_name = i2.kops_state_store_name ∧
        i1.original_images_bucket = i2.original_images_bucket ∧
        i1.augmented_images_bucket = i2.augmented_images_bucket := by
  refine ⟨rfl, rfl, rfl, rfl, ?_⟩
  rintro p i1 i2 rfl rfl
  exact ⟨rfl, rfl, rfl, rfl⟩

/-- Witness for C7 at the concrete prefix "demo". -/
theorem deterministic_naming_witness :
    (mkClusterIdentity "demo").cluster_name = (mkClusterIdentity "demo").cluster_name ∧
    (mkClusterIdentity "demo").kops_state_store_name = (mkClusterIdentity "demo").kops_state_store_name ∧
    (mkClusterIdentity "demo").original_images_bucket = (mkClusterIdentity "demo").original_images_bucket ∧
    (mkClusterIdentity "demo").augmented_images_bucket = (mkClusterIdentity "demo").augmented_images_bucket :=
  deterministic_naming.2.2.2.2 "demo" (mkClusterIdentity "demo") (mkClusterIdentity "demo") rfl rfl

/-- Claim C8: for prefix "demo", a mismatched externally-configured cluster
name makes the validation check raise an error whose message contains the
exact expected value "demo.k8s.local". -/
theorem env_validation_exact (env : Env)
    (h : env.kops_cluster_name ≠ "demo.k8s.local") :
    ∃ msg, check_environmental_variables (mkClusterIdentity "demo") env =
        Except.error (PyError.environmentError msg) ∧
      strContains msg "demo.k8s.local" = true := by
  refine ⟨"please run this command in Terminal and try again:\x27export KOPS_CLUSTER_NAME=\"demo.k8s.local\"\x27 >> $HOME/.bash_profile", ?_, by decide⟩
  unfold check_environmental_variables
  rw [if_pos]
  · rfl
  · exact h

/-- Witness for C8 at a concrete mismatched environment. -/
theorem env_validation_exact_witness :
    envWrong.kops_cluster_name ≠ "demo.k8s.local" ∧
    ∃ msg, check_environmental_variables (mkClusterIdentity "demo") envWrong =
        Except.error (PyError.environmentError msg) ∧
      strContains msg "demo.k8s.local" = true :=
  ⟨by decide, env_validation_exact envWrong (by decide)⟩

/-- Claim C5 (refuted by the code as written): non-empty error output is
supposed to raise an error propagated to the caller.  In fact
`subprocess.Popen` is invoked with only stdout piped, so `communicate()`
always yields `None` for the error component, the `if error: raise OSError`
branch is dead, and every call — including one whose command writes "boom" to
stderr — returns the stripped stdout and raises nothing. -/
theorem shell_error_never_raised :
    pass_command_to_shell { stdout := " out \n", stderr := "boom" } = Except.ok "out" ∧
    ∀ r : ProcessResult, pass_command_to_shell r = Except.ok (pyStrip r.stdout) := by
  refine ⟨?_, fun r => rfl⟩
  simp only [pass_command_to_shell, communicate]
  exact congrArg Except.ok (by decide)

theorem list_objects_loop_good :
    ∀ (pages : List Page), goodPages pages = true →
      ∀ (acc : List S3Object) (tok : Option String),
        list_objects_loop pages acc tok =
          (some (acc ++ allContents pages),
           tok :: pages.dropLast.map Page.nextToken) := by
  intro pages
  induction pages with
  | nil => intro h; exact absurd h (by decide)
  | cons page rest ih =>
    intro h acc tok
    obtain ⟨pc, pt⟩ := page
    cases rest with
    | nil =>
      simp only [goodPages, Bool.and_eq_true] at h
      obtain ⟨objects, hobjects⟩ := Option.isSome_iff_exists.mp h.1
      have htok : pt = none := Option.isNone_iff_eq_none.mp h.2
      subst hobjects
      subst htok
      simp [list_objects_loop, allContents, pageContents]
    | cons q rest2 =>
      simp only [goodPages, Bool.and_eq_true] at h
      obtain ⟨objects, hobjects⟩ := Option.isSome_iff_exists.mp h.1.1
      obtain ⟨t, ht⟩ := Option.isSome_iff_exists.mp h.1.2
      subst hobjects
      subst ht
      have hrec := ih h.2 (acc ++ objects) (some t)
      show ((list_objects_loop (q :: rest2) (acc ++ objects) (some t)).1,
          tok :: (list_objects_loop (q :: rest2) (acc ++ objects) (some t)).2) = _
      rw [hrec]
      simp [allContents, pageContents, List.dropLast_cons_of_ne_nil]

/-- Claim C2: for every well-formed paginated listing sequence, the pointer
listing issues one call per page (following the continuation token of each page,
starting with none), stops at the first page without a token, and returns the
in-order concatenation of the contents of all pages (hence no duplicates beyond
those served, and none at all when the served pages are duplicate-free). -/
theorem listAll_pagination (pages : List Page) (h : goodPages pages = true) :
    (download_augmented_images_pointers pages).1 = some (allContents pages) ∧
    (download_augmented_images_pointers pages).2.length = pages.length ∧
    (download_augmented_images_pointers pages).2 =
      none :: pages.dropLast.map Page.nextToken ∧
    ((allContents pages).Nodup →
      ∀ l, (download_augmented_images_pointers pages).1 = some l → l.Nodup) := by
  have hmain := list_objects_loop_good pages h [] none
  unfold download_augmented_images_pointers
  rw [hmain]
  refine ⟨by simp, ?_, rfl, ?_⟩
  · cases pages with
    | nil => exact absurd h (by decide)
    | cons page rest => simp
  · intro hnd l hl
    simp only [List.nil_append, Option.some.injEq] at hl
    exact hl ▸ hnd

/-- Witness for C2 on the concrete two-page sequence. -/
theorem listAll_pagination_witness :
    goodPages pagesEx = true ∧
    (download_augmented_images_pointers pagesEx).1 = some [o1, o2, o3] ∧
    (download_augmented_images_pointers pagesEx).2.length = 2 :=
  ⟨rfl, (listAll_pagination pagesEx rfl).1, (listAll_pagination pagesEx rfl).2.1⟩

theorem list_objects_loop_missing_contents (bad : Page) (rest : List Page)
    (hbad : bad.contents = none) :
    ∀ (pre : List Page), (∀ p ∈ pre, p.contents.isSome = true ∧ p.nextToken.isSome = true) →
      ∀ (acc : List S3Object) (tok : Option String),
        (list_objects_loop (pre ++ bad :: rest) acc tok).1 = none := by
  intro pre
  induction pre with
  | nil =>
    intro _ acc tok
    simp [list_objects_loop, hbad]
  | cons p pre2 ih =>
    intro hpre acc tok
    obtain ⟨objects, hobjects⟩ :=
      Option.isSome_iff_exists.mp (hpre p (List.mem_cons_self p pre2)).1
    obtain ⟨t, ht⟩ :=
      Option.isSome_iff_exists.mp (hpre p (List.mem_cons_self p pre2)).2
    have hrec := ih (fun q hq => hpre q (List.mem_cons_of_mem p hq)) (acc ++ objects) (some t)
    simp [list_objects_loop, hobjects, ht, hrec]

/-- Claim C10: whenever any listing page — first or later — lacks a "Contents"
key, the pointer listing returns `None` (not the empty list, not the pointers
accumulated so far), and `download_augmented_images` then hands that `None` to
the map call of the pool, raising `TypeError` instead of completing cleanly. -/
theorem missing_contents_returns_none (pre : List Page) (bad : Page) (rest : List Page)
    (hpre : ∀ p ∈ pre, p.contents.isSome = true ∧ p.nextToken.isSome = true)
    (hbad : bad.contents = none) :
    (download_augmented_images_pointers (pre ++ bad :: rest)).1 = none ∧
    download_augmented_images (pre ++ bad :: rest) =
      Except.error (PyError.typeError "NoneType object is not iterable") := by
  have hnone := list_objects_loop_missing_contents bad rest hbad pre hpre [] none
  refine ⟨hnone, ?_⟩
  unfold download_augmented_images download_augmented_images_pointers
  unfold download_augmented_images_pointers at hnone
  rw [hnone]

/-- Witness for C10 on the concrete sequence whose second page has no
contents key: the two pointers of page 1 are discarded and the download step
raises. -/
theorem missing_contents_witness :
    (download_augmented_images_pointers pagesBad).1 = none ∧
    download_augmented_images pagesBad =
      Except.error (PyError.typeError "NoneType object is not iterable") :=
  missing_contents_returns_none
    [{ contents := some [o1, o2], nextToken := some "T1" }]
    { contents := none, nextToken := none } []
    (by
      intro p hp
      rw [List.mem_singleton] at hp
      subst hp
      exact ⟨rfl, rfl⟩)
    rfl

/-- Claim C6: the progress sampler parses the leading integer of the last log
line ("count:..."), the estimate is batch_size * (count + 1) with
batch_size = 100 * 2^6 = 6400, a tail of "42:..." yields 275200, and an empty
log yields None rather than an error. -/
theorem progress_derivation :
    get_progress "42:..." = Except.ok (some 42) ∧
    get_progress "" = Except.ok none ∧
    batch_size = 6400 ∧
    remaining_estimate 42 = 275200 ∧
    (∀ count : Int, remaining_estimate count = 6400 * (count + 1)) ∧
    get_progress "0:begun\n42:..." = Except.ok (some 42) := by
  refine ⟨rfl, rfl, by decide, by decide, fun count => ?_, rfl⟩
  norm_num [remaining_estimate, batch_size]

/-- Claim C9: calling upload_images with neither source raises ValueError with
no shell command issued at all; with exactly one source given, the
corresponding copy command is the first command issued. -/
theorem upload_images_requires_source (ident : ClusterIdentity)
    (local_images_directory s3_origin : Option String) :
    (pyTruthy s3_origin = false → pyTruthy local_images_directory = false →
      upload_images ident local_images_directory s3_origin =
        ([], Except.error (PyError.valueError "at least one image origin must be not None"))) ∧
    (∀ origin : String, s3_origin = some origin → origin ≠ "" →
      local_images_directory = none →
      (upload_images ident local_images_directory s3_origin).1.head? =
        some ("aws s3 cp s3://" ++ origin ++ " s3://" ++ ident.original_images_bucket
          ++ " --recursive --quiet")) ∧
    (∀ dir : String, local_images_directory = some dir → dir ≠ "" → s3_origin = none →
      (upload_images ident local_images_directory s3_origin).1.head? =
        some ("aws s3 cp " ++ dir ++ " s3://" ++ ident.original_images_bucket
          ++ " --recursive --quiet")) := by
  refine ⟨?_, ?_, ?_⟩
  · intro h1 h2
    simp [upload_images, h1, h2]
  · rintro origin rfl hne rfl
    have ht : pyTruthy (some origin) = true := by
      simp [pyTruthy, List.isEmpty_iff]
      intro hc
      exact hne (by cases origin; simp_all)
    simp [upload_images, ht]
  · rintro dir rfl hne rfl
    have ht : pyTruthy (some dir) = true := by
      simp [pyTruthy, List.isEmpty_iff]
      intro hc
      exact hne (by cases dir; simp_all)
    have hd : dir.data ≠ [] := by
      intro hc
      exact hne (by cases dir; simp_all)
    simp [upload_images, ht, pyTruthy, hd]

/-- Witness for C9: no source at all raises before any command; a remote
source alone issues the remote copy first. -/
theorem upload_images_requires_source_witness :
    upload_images (mkClusterIdentity "demo") none none =
      ([], Except.error (PyError.valueError "at least one image origin must be not None")) ∧
    (upload_images (mkClusterIdentity "demo") none (some "src-bucket")).1.head? =
      some "aws s3 cp s3://src-bucket s3://demo-original-images-bucket --recursive --quiet" :=
  ⟨(upload_images_requires_source (mkClusterIdentity "demo") none none).1 rfl rfl,
   (upload_images_requires_source (mkClusterIdentity "demo") none (some "src-bucket")).2.1
     "src-bucket" rfl (by decide) rfl⟩

theorem list_all_mono {α : Type} {p q : α → Bool} {l : List α}
    (hpq : ∀ a, p a = true → q a = true) (h : l.all p = true) : l.all q = true :=
  List.all_eq_true.mpr fun a ha => hpq a (List.all_eq_true.mp h a ha)

theorem list_takeWhile_eq_self_of_all {α : Type} {q : α → Bool} {l : List α}
    (h : l.all q = true) : l.takeWhile q = l := by
  induction l with
  | nil => rfl
  | cons a l ih =>
    simp only [List.all_cons, Bool.and_eq_true] at h
    simp [List.takeWhile_cons_of_pos h.1, ih h.2]

theorem list_takeWhile_append_of_all {α : Type} {q : α → Bool} {l1 l2 : List α}
    (h : l1.all q = true) : (l1 ++ l2).takeWhile q = l1 ++ l2.takeWhile q := by
  induction l1 with
  | nil => rfl
  | cons a l ih =>
    simp only [List.all_cons, Bool.and_eq_true] at h
    simp [List.takeWhile_cons_of_pos h.1, ih h.2]

theorem list_dropWhile_eq_nil_of_all {α : Type} {q : α → Bool} {l : List α}
    (h : l.all q = true) : l.dropWhile q = [] := by
  induction l with
  | nil => rfl
  | cons a l ih =>
    simp only [List.all_cons, Bool.and_eq_true] at h
    simp [List.dropWhile_cons_of_pos h.1, ih h.2]

theorem list_dropWhile_append_of_all {α : Type} {q : α → Bool} {l1 l2 : List α}
    (h : l1.all q = true) : (l1 ++ l2).dropWhile q = l2.dropWhile q := by
  induction l1 with
  | nil => rfl
  | cons a l ih =>
    simp only [List.all_cons, Bool.and_eq_true] at h
    simp [List.dropWhile_cons_of_pos h.1, ih h.2]

theorem list_filter_eq_nil_of_all_not {α : Type} {p : α → Bool} {l : List α}
    (h : l.all (fun a => !(p a)) = true) : l.filter p = [] :=
  List.filter_eq_nil_iff.mpr fun a ha => by
    have := List.all_eq_true.mp h a ha
    simp_all

theorem setup_not_validation {e : Event} (h : isSetupEvent e = true) :
    (!(isValidationCheck e)) = true := by
  cases e <;> simp_all [isSetupEvent, isValidationCheck]

theorem setup_not_activation {e : Event} (h : isSetupEvent e = true) :
    (!(isActivationEvent e)) = true := by
  cases e <;> simp_all [isSetupEvent, isActivationEvent]

theorem setup_not_ready {e : Event} (h : isSetupEvent e = true) :
    (!(isReadySignal e)) = true := by
  cases e <;> simp_all [isSetupEvent, isReadySignal]

theorem provision_storage_setup (buckets : List String) (ident : ClusterIdentity) :
    (provision_storage buckets ident).2.all isSetupEvent = true := by
  unfold provision_storage create_image_buckets state_store_step ensure_bucket
  dsimp only
  split <;> split <;> split <;> rfl

theorem interface_init_shape (pfx : String) (w : World) :
    ∃ front : List Event,
      front.all isSetupEvent = true ∧
      ((interface_init pfx w).1 = front ∨
       (interface_init pfx w).1 = front ++ [Event.envCheck] ∨
       ((interface_init pfx w).1 = front ++ [Event.envCheck, Event.readinessProbe false] ∧
         check_environmental_variables (mkClusterIdentity pfx) w.env = Except.ok ()) ∨
       ((interface_init pfx w).1 = front ++ [Event.envCheck, Event.readinessProbe true] ++
           configure_base_cluster_events ++ base_activation_events ∧
         check_environmental_variables (mkClusterIdentity pfx) w.env = Except.ok ())) := by
  unfold interface_init
  dsimp only
  split
  · exact ⟨[Event.shellCheck "kubectl -h"], rfl, Or.inl rfl⟩
  · split
    · exact ⟨[Event.shellCheck "kubectl -h", Event.shellCheck "aws help"], rfl, Or.inl rfl⟩
    · refine ⟨[Event.shellCheck "kubectl -h", Event.shellCheck "aws help"] ++
        (provision_storage w.buckets (mkClusterIdentity pfx)).2, ?_, ?_⟩
      · simp [List.all_append, provision_storage_setup, isSetupEvent]
      · split
        · exact Or.inr (Or.inl (by simp))
        · next heq =>
          split
          · refine Or.inr (Or.inr (Or.inr ⟨by simp, ?_⟩))
            rw [heq]
          · refine Or.inr (Or.inr (Or.inl ⟨by simp, ?_⟩))
            rw [heq]

/-- World `w0` as a counterexample: in a fresh construction the state store
and both image buckets are created before the environment validation runs, so
the claimed no-creation-before-validation ordering is false. -/
theorem provisioning_precedes_validation :
    noCreationBeforeValidation (interface_init "demo" w0).1 = false := by decide

/-- Claim C1 (amended): environment validation runs after the storage
provisioning calls but before everything else: in every construction no
stage-activation command is issued before the validation check, no
resource-creation call is issued after it, and activations happen only when
the validation succeeded. -/
theorem env_validation_position (pfx : String) (w : World) :
    noActivationBeforeValidation (interface_init pfx w).1 = true ∧
    noCreationAfterValidation (interface_init pfx w).1 = true ∧
    ((interface_init pfx w).1.filter isActivationEvent ≠ [] →
      check_environmental_variables (mkClusterIdentity pfx) w.env = Except.ok ()) := by
  obtain ⟨front, hfront, hshape⟩ := interface_init_shape pfx w
  have hnv : front.all (fun e => !(isValidationCheck e)) = true :=
    list_all_mono (fun a ha => setup_not_validation ha) hfront
  have hna : front.all (fun e => !(isActivationEvent e)) = true :=
    list_all_mono (fun a ha => setup_not_activation ha) hfront
  have hfa : front.filter isActivationEvent = [] := list_filter_eq_nil_of_all_not hna
  rcases hshape with h | h | ⟨h, hok⟩ | ⟨h, hok⟩ <;> rw [h]
  · refine ⟨?_, ?_, ?_⟩
    · unfold noActivationBeforeValidation
      rw [list_takeWhile_eq_self_of_all hnv]
      exact hna
    · unfold noCreationAfterValidation
      rw [list_dropWhile_eq_nil_of_all hnv]
      rfl
    · intro hne
      exact absurd hfa hne
  · refine ⟨?_, ?_, ?_⟩
    · unfold noActivationBeforeValidation
      rw [list_takeWhile_append_of_all hnv, List.all_append, hna]
      rfl
    · unfold noCreationAfterValidation
      rw [list_dropWhile_append_of_all hnv]
      rfl
    · intro hne
      rw [List.filter_append, hfa] at hne
      exact absurd rfl hne
  · refine ⟨?_, ?_, fun _ => hok⟩
    · unfold noActivationBeforeValidation
      rw [list_takeWhile_append_of_all hnv, List.all_append, hna]
      rfl
    · unfold noCreationAfterValidation
      rw [list_dropWhile_append_of_all hnv]
      rfl
  · have hre : front ++ [Event.envCheck, Event.readinessProbe true] ++
        configure_base_cluster_events ++ base_activation_events =
        front ++ ([Event.envCheck, Event.readinessProbe true] ++
          configure_base_cluster_events ++ base_activation_events) := by
      simp [List.append_assoc]
    rw [hre]
    refine ⟨?_, ?_, fun _ => hok⟩
    · unfold noActivationBeforeValidation
      rw [list_takeWhile_append_of_all hnv, List.all_append, hna]
      rfl
    · unfold noCreationAfterValidation
      rw [list_dropWhile_append_of_all hnv]
      rfl

/-- Witness for C1 (amended) at the ready world `w1`: activations did occur
and the environment validation had succeeded. -/
theorem env_validation_position_witness :
    (interface_init "demo" w1).1.filter isActivationEvent ≠ [] ∧
    check_environmental_variables (mkClusterIdentity "demo") w1.env = Except.ok () :=
  ⟨by decide, (env_validation_position "demo" w1).2.2 (by decide)⟩

/-- Claim C3: provisioning is idempotent: a creation request is issued iff the
existence check is false at check time, after ensuring the bucket it exists,
and two ensures in sequence issue exactly one creation when the bucket was
initially absent and none when it existed. -/
theorem ensure_idempotent (buckets : List String) (name : String) :
    countBucketCreations ((ensure_bucket buckets name).2 ++
        (ensure_bucket (ensure_bucket buckets name).1 name).2) =
      (if bucket_exists buckets name then 0 else 1) ∧
    countBucketCreations (ensure_bucket buckets name).2 =
      (if bucket_exists buckets name then 0 else 1) ∧
    bucket_exists (ensure_bucket buckets name).1 name = true := by
  by_cases h : bucket_exists buckets name = true
  · simp [ensure_bucket, h, countBucketCreations, isBucketCreation, List.filter]
  · rw [Bool.not_eq_true] at h
    have h2 : bucket_exists (name :: buckets) name = true := by
      simp [bucket_exists, List.contains_cons]
    simp [ensure_bucket, h, h2, countBucketCreations, isBucketCreation, List.filter]

/-- Claim C4: the base-phase stages activate in the fixed order secret,
secret-store, redis-service, redis-master (or not at all), and no stage
activates before the readiness probe has returned Ready at least once. -/
theorem base_phase_ordering (pfx : String) (w : World) :
    noActivationBeforeReady (interface_init pfx w).1 = true ∧
    ((interface_init pfx w).1.filter isActivationEvent = [] ∨
     (interface_init pfx w).1.filter isActivationEvent = base_activation_events) := by
  obtain ⟨front, hfront, hshape⟩ := interface_init_shape pfx w
  have hnr : front.all (fun e => !(isReadySignal e)) = true :=
    list_all_mono (fun a ha => setup_not_ready ha) hfront
  have hna : front.all (fun e => !(isActivationEvent e)) = true :=
    list_all_mono (fun a ha => setup_not_activation ha) hfront
  have hfa : front.filter isActivationEvent = [] := list_filter_eq_nil_of_all_not hna
  rcases hshape with h | h | ⟨h, hok⟩ | ⟨h, hok⟩ <;> rw [h]
  · constructor
    · unfold noActivationBeforeReady
      rw [list_takeWhile_eq_self_of_all hnr]
      exact hna
    · exact Or.inl hfa
  · constructor
    · unfold noActivationBeforeReady
      rw [list_takeWhile_append_of_all hnr, List.all_append, hna]
      rfl
    · refine Or.inl ?_
      rw [List.filter_append, hfa]
      rfl
  · constructor
    · unfold noActivationBeforeReady
      rw [list_takeWhile_append_of_all hnr, List.all_append, hna]
      rfl
    · refine Or.inl ?_
      rw [List.filter_append, hfa]
      rfl
  · have hre : front ++ [Event.envCheck, Event.readinessProbe true] ++
        configure_base_cluster_events ++ base_activation_events =
        front ++ ([Event.envCheck, Event.readinessProbe true] ++
          configure_base_cluster_events ++ base_activation_events) := by
      simp [List.append_assoc]
    rw [hre]
    constructor
    · unfold noActivationBeforeReady
      rw [list_takeWhile_append_of_all hnr, List.all_append, hna]
      rfl
    · refine Or.inr ?_
      rw [List.filter_append, hfa]
      rfl

end Kaleidoscope
